import Mathlib

/-!
Verification of the LSP client / manager core (`lsp_client.rs`,
`lsp_handlers.rs`): a shallow embedding of the data model and of the pure
decision logic of the protocol client, the per-session driver loop, and the
tool handlers, with theorems settling the specification claims.

Machine integers (`u32`, `u64`) are modelled as `Nat`; the session's `u64`
request-id counter wraps explicitly modulo `2 ^ 64`.  Rust `String` is
modelled as Lean `String` (the only byte-level operation used, stripping the
ASCII prefix `"file://"`, coincides with the character-level one).
`serde_json::Value` is modelled by the `Json` inductive below; the JSON
string (de)serialization at the process boundary is abstracted: functions
take already-parsed values.
-/

namespace Codex

/-- Model of a `serde_json::Value`.  Objects are association lists; lookup
returns the first binding of a key (`serde_json` maps have unique keys). -/
inductive Json where
  | null : Json
  | bool : Bool → Json
  | num : Int → Json
  | str : String → Json
  | arr : List Json → Json
  | obj : List (String × Json) → Json

/-- `Value::get(key)`: field lookup on an object, `none` on any other shape. -/
def Json.get (j : Json) (key : String) : Option Json :=
  match j with
  | .obj fields => (fields.find? (fun kv => kv.1 == key)).map (·.2)
  | _ => none

/-- `serde_json::from_value::<u64>`: succeeds exactly on a number that is a
non-negative integer below `2 ^ 64`. -/
def Json.asU64 (j : Json) : Option Nat :=
  match j with
  | .num n => if 0 ≤ n ∧ n < (2 : Int) ^ 64 then some n.toNat else none
  | _ => none

/-- `Value::as_str`: the underlying string of a string value. -/
def Json.asStr (j : Json) : Option String :=
  match j with
  | .str s => some s
  | _ => none

/-- Deserialization of a `u32` field (`serde_json::from_value::<u32>`). -/
def parse_u32 (j : Json) : Option Nat :=
  match j with
  | .num n => if 0 ≤ n ∧ n < (2 : Int) ^ 32 then some n.toNat else none
  | _ => none

/-- LSP position in a document (`Position`), zero-based; `u32` fields. -/
structure Position where
  line : Nat
  character : Nat
deriving Repr, DecidableEq

/-- LSP range in a document (`Range`). -/
structure Range where
  start : Position
  «end» : Position
deriving Repr, DecidableEq

/-- LSP diagnostic (`Diagnostic`); severity 1=Error, 2=Warning,
3=Information, 4=Hint. -/
structure Diagnostic where
  range : Range
  severity : Option Nat
  code : Option Json
  source : Option String
  message : String

/-- LSP completion item (`CompletionItem`). -/
structure CompletionItem where
  label : String
  kind : Option Nat
  detail : Option String
  documentation : Option String
  insert_text : Option String
deriving Repr, DecidableEq

/-- LSP location for go-to-definition (`Location`). -/
structure Location where
  uri : String
  range : Range
deriving Repr, DecidableEq

/-- LSP server configuration (`LspServerConfig`).  The environment mapping is
an association list. -/
structure LspServerConfig where
  language : String
  command : String
  args : List String
  env : List (String × String)
  file_extensions : List String
deriving Repr, DecidableEq

/-- `default_lsp_configs`: the built-in catalog of five language servers. -/
def default_lsp_configs : List LspServerConfig :=
  [ { language := "rust", command := "rust-analyzer", args := [], env := [],
      file_extensions := ["rs"] },
    { language := "typescript", command := "typescript-language-server",
      args := ["--stdio"], env := [],
      file_extensions := ["ts", "tsx", "js", "jsx"] },
    { language := "python", command := "pylsp", args := [], env := [],
      file_extensions := ["py", "pyi"] },
    { language := "go", command := "gopls", args := [], env := [],
      file_extensions := ["go"] },
    { language := "java", command := "jdtls", args := [], env := [],
      file_extensions := ["java"] } ]

/-- The extension→config resolution step of `LspManager::get_client_for_file`:
the file's extension (`none` for a path without one, as produced by
`Path::extension`) is defaulted to `""` and matched in order against each
config's `file_extensions`; the first match wins, no match is a typed
error. -/
def resolve_config (configs : List LspServerConfig) (ext : Option String) :
    Except String LspServerConfig :=
  let extension := ext.getD ""
  match configs.find? (fun cfg => cfg.file_extensions.contains extension) with
  | some cfg => Except.ok cfg
  | none =>
      Except.error ("No LSP server configured for file extension: " ++ extension)

/-- `LspManager::get_language_for_file`: `none` when the path has no
extension, otherwise the language of the first config whose extension set
contains it. -/
def get_language_for_file (configs : List LspServerConfig)
    (ext : Option String) : Option String :=
  ext.bind fun extension =>
    (configs.find? (fun cfg => cfg.file_extensions.contains extension)).map
      (·.language)

/-- How `handle_lsp_message` resolves a pending request's one-shot slot. -/
inductive LspResolution where
  | serverError : Json → LspResolution
  | success : Json → LspResolution
  | invalidResponse : LspResolution

/-- The response-dispatch logic of `handle_lsp_message`, after the line has
been parsed into a JSON value.  The pending table is modelled by its key set
(a list of ids with no duplicates, mirroring the `HashMap`); the returned
pair is the new table together with the resolution delivered to the removed
slot, if any.  A message without an `id`, with a non-`u64` `id`, or whose id
matches no pending request changes nothing. -/
def handle_lsp_message (message : Json) (pending : List Nat) :
    List Nat × Option (Nat × LspResolution) :=
  match (message.get "id").bind Json.asU64 with
  | some request_id =>
      if request_id ∈ pending then
        let resolution :=
          match message.get "error" with
          | some e => LspResolution.serverError e
          | none =>
              match message.get "result" with
              | some r => LspResolution.success r
              | none => LspResolution.invalidResponse
        (pending.erase request_id, some (request_id, resolution))
      else (pending, none)
  | none => (pending, none)

/-- Wrapping increment of the session's `u64` request-id counter
(`request_id += 1`). -/
def bump64 (c : Nat) : Nat := (c + 1) % 2 ^ 64

/-- Ids assigned to the first `k` outbound requests of one session when the
counter currently holds `c`.  In `lsp_communication_task` the counter starts
at `0`; `initialize_lsp_server` performs the first increment (so the
`initialize` request gets the first id), and the driver loop increments once
per subsequent request. -/
def assign_ids : Nat → Nat → List Nat
  | 0, _ => []
  | k + 1, c => bump64 c :: assign_ids k (bump64 c)

/-- Observable outcome of one request submitted through
`LspClient::send_request`. -/
inductive RequestOutcome where
  | clientClosed : RequestOutcome
  | writeFailed : String → RequestOutcome
  | delivered : RequestOutcome
deriving Repr, DecidableEq

/-- State of one server session shared between the client handles, the
driver loop and the reader loop: whether the communication task still holds
the request-channel receiver, whether the child process is still running
(its stdin writable), the id counter, and the key set of the pending
table. -/
structure SessionState where
  commTaskAlive : Bool
  processAlive : Bool
  request_id : Nat
  pending : List Nat
deriving Repr, DecidableEq

/-- One request submitted through `LspClient::send_request` and, when the
channel send succeeds, handled by the driver loop of
`lsp_communication_task`.  The channel send fails with "LSP client is
closed" exactly when the communication task has exited (its receiver
dropped).  Otherwise the driver increments the id counter, registers the
correlation slot, and attempts the framed write; the write fails iff the
child process is gone (broken stdin pipe), in which case the driver removes
the slot again and resolves it with a transport error, and the session keeps
serving later requests.  A successful write leaves the outcome to the
server's eventual response (`delivered`). -/
def send_request_step (s : SessionState) : RequestOutcome × SessionState :=
  if s.commTaskAlive then
    let rid := bump64 s.request_id
    if s.processAlive then
      (RequestOutcome.delivered,
        { s with request_id := rid, pending := rid :: s.pending })
    else
      (RequestOutcome.writeFailed "Failed to send request",
        { s with request_id := rid, pending := (rid :: s.pending).erase rid })
  else
    (RequestOutcome.clientClosed, s)

/-- Effect on the session of the child process exiting (end-of-file on its
stdout): the reader task breaks out of its loop and ends, and the process is
gone, but the driver loop keeps running — it exits only when every client
handle has been dropped — so the request channel stays open. -/
def after_process_exit (s : SessionState) : SessionState :=
  { s with processAlive := false }

/-- Result of spawning the configured server process
(`Command::new(..).spawn()` plus taking its stdin/stdout). -/
inductive SpawnOutcome where
  | ok : SpawnOutcome
  | failed : String → SpawnOutcome
deriving Repr, DecidableEq

/-- Result of the `initialize`/`initialized` handshake run by
`initialize_lsp_server` inside the spawned communication task. -/
inductive HandshakeOutcome where
  | ok : HandshakeOutcome
  | failed : String → HandshakeOutcome
deriving Repr, DecidableEq

/-- Observable state of an `LspClient` handle: its cached language and root
URI, and whether the communication task behind its channel is still
running. -/
structure LspClientState where
  language : String
  root_uri : String
  commTaskAlive : Bool
deriving Repr, DecidableEq

/-- `LspClient::new`: a spawn failure is returned as an error before the
communication task exists.  On spawn success the communication task is
spawned — the `initialize`/`initialized` handshake runs *inside that task* —
and `new` returns `Ok` immediately, whatever the handshake later does.  A
handshake failure only makes the task return early, dropping the
request-channel receiver (`commTaskAlive = false`), so every later request
on the handle fails with "LSP client is closed". -/
def lsp_client_new (spawn : SpawnOutcome) (handshake : HandshakeOutcome)
    (config : LspServerConfig) (workspace_root : String) :
    Except String LspClientState :=
  match spawn with
  | .failed _ =>
      Except.error ("Failed to start LSP server: " ++ config.command)
  | .ok =>
      Except.ok
        { language := config.language
          root_uri := "file://" ++ workspace_root
          commTaskAlive :=
            match handshake with
            | .ok => true
            | .failed _ => false }

/-- `LspManager` state: the language→client cache (an association list
mirroring the `HashMap`), the immutable config catalog, and the workspace
root. -/
structure LspManager where
  clients : List (String × LspClientState)
  configs : List LspServerConfig
  workspace_root : String
deriving Repr, DecidableEq

/-- `LspManager::new`: empty cache, default configs. -/
def LspManager.new (workspace_root : String) : LspManager :=
  { clients := [], configs := default_lsp_configs,
    workspace_root := workspace_root }

/-- `LspManager::get_client_for_file`: resolve the config for the file's
extension, return the cached client for that language when present,
otherwise create one through `lsp_client_new` and cache it iff creation
returned `Ok`.  `spawn` and `handshake` describe the environment's behaviour
when a new server process has to be started. -/
def get_client_for_file (mgr : LspManager) (ext : Option String)
    (spawn : SpawnOutcome) (handshake : HandshakeOutcome) :
    Except String LspClientState × LspManager :=
  match resolve_config mgr.configs ext with
  | Except.error e => (Except.error e, mgr)
  | Except.ok config =>
      match (mgr.clients.find? (fun kv => kv.1 == config.language)).map (·.2) with
      | some client => (Except.ok client, mgr)
      | none =>
          match lsp_client_new spawn handshake config mgr.workspace_root with
          | Except.error e =>
              (Except.error
                  ("Failed to start LSP client for " ++ config.language ++ ": " ++ e),
                mgr)
          | Except.ok client =>
              (Except.ok client,
                { mgr with clients := (config.language, client) :: mgr.clients })

/-- Deserialization of a `Position` (required `line` and `character`
fields). -/
def parse_position (j : Json) : Option Position :=
  match (j.get "line").bind parse_u32, (j.get "character").bind parse_u32 with
  | some line, some character => some { line := line, character := character }
  | _, _ => none

/-- Deserialization of a `Range` (required `start` and `end` fields). -/
def parse_range (j : Json) : Option Range :=
  match (j.get "start").bind parse_position, (j.get "end").bind parse_position with
  | some s, some e => some { start := s, «end» := e }
  | _, _ => none

/-- Deserialization of a `Location` (required `uri` and `range` fields). -/
def parse_location (j : Json) : Option Location :=
  match (j.get "uri").bind Json.asStr, (j.get "range").bind parse_range with
  | some uri, some range => some { uri := uri, range := range }
  | _, _ => none

/-- Deserialization of a `Vec<Location>`: an array all of whose elements are
locations. -/
def parse_locations (j : Json) : Option (List Location) :=
  match j with
  | .arr elems => elems.mapM parse_location
  | _ => none

/-- The result-shape normalisation of `LspClient::go_to_definition`: the raw
response payload is tried as a single `Location`, then as a list of
locations; any other shape yields the empty list.  The function is total —
no payload shape produces an error. -/
def go_to_definition_parse (response : Json) : List Location :=
  match parse_location response with
  | some location => [location]
  | none =>
      match parse_locations response with
      | some locations => locations
      | none => []

/-- Deserialization of an optional struct field: an absent or `null` field
is `none`; a present non-null field must parse, or the whole struct fails
(serde `Option<T>` semantics). -/
def parse_opt_field {α : Type} (j : Json) (key : String)
    (p : Json → Option α) : Option (Option α) :=
  match j.get key with
  | none => some none
  | some Json.null => some none
  | some v => (p v).map some

/-- Deserialization of a `Diagnostic` (`range` and `message` required;
`severity`, `code`, `source` optional). -/
def parse_diagnostic (j : Json) : Option Diagnostic :=
  match (j.get "range").bind parse_range,
      parse_opt_field j "severity" parse_u32,
      parse_opt_field j "code" some,
      parse_opt_field j "source" Json.asStr,
      (j.get "message").bind Json.asStr with
  | some range, some severity, some code, some source, some message =>
      some { range := range, severity := severity, code := code,
             source := source, message := message }
  | _, _, _, _, _ => none

/-- Deserialization of a `Vec<Diagnostic>`. -/
def parse_diagnostics (j : Json) : Option (List Diagnostic) :=
  match j with
  | .arr elems => elems.mapM parse_diagnostic
  | _ => none

/-- `LspClient::get_diagnostics`, parameterised by the raw result of the
underlying request: a failed request is downgraded to an empty list; a
response without a `diagnostics` field yields an empty list; a
`diagnostics` field that fails to parse is `unwrap_or_default`ed to the
empty list.  The function never returns an error. -/
def get_diagnostics (request_result : Except String Json) :
    Except String (List Diagnostic) :=
  match request_result with
  | Except.ok response =>
      match response.get "diagnostics" with
      | some d => Except.ok ((parse_diagnostics d).getD [])
      | none => Except.ok []
  | Except.error _ => Except.ok []

/-- Line/character rectangle of the tool schema (`LineRange`). -/
structure LineRange where
  start_line : Nat
  start_character : Nat
  end_line : Nat
  end_character : Nat
deriving Repr, DecidableEq

/-- One diagnostic of the tool response (`DiagnosticItem`); `severity` is no
longer optional. -/
structure DiagnosticItem where
  range : LineRange
  severity : Nat
  message : String
  source : Option String
  code : Option String
deriving Repr, DecidableEq

/-- Severity counts of the tool response (`DiagnosticSummary`); the `u32`
counters are modelled as `Nat` (each is bounded by the list length). -/
structure DiagnosticSummary where
  errors : Nat
  warnings : Nat
  info : Nat
  hints : Nat
deriving Repr, DecidableEq

/-- The per-diagnostic conversion done in `handle_code_diagnostics`: a
missing severity defaults to `1` (`unwrap_or(1)`), and a non-string `code`
value is dropped (`as_str`). -/
def to_diagnostic_item (diag : Diagnostic) : DiagnosticItem :=
  { range :=
      { start_line := diag.range.start.line
        start_character := diag.range.start.character
        end_line := diag.range.«end».line
        end_character := diag.range.«end».character }
    severity := diag.severity.getD 1
    message := diag.message
    source := diag.source
    code := diag.code.bind Json.asStr }

/-- One step of the severity tally in `handle_code_diagnostics`; severities
outside 1–4 are not counted. -/
def count_severity (acc : DiagnosticSummary) (severity : Nat) :
    DiagnosticSummary :=
  match severity with
  | 1 => { acc with errors := acc.errors + 1 }
  | 2 => { acc with warnings := acc.warnings + 1 }
  | 3 => { acc with info := acc.info + 1 }
  | 4 => { acc with hints := acc.hints + 1 }
  | _ => acc

/-- The single pass of `handle_code_diagnostics` over the diagnostics,
producing the output items and the severity summary. -/
def summarize_diagnostics (diags : List Diagnostic) :
    List DiagnosticItem × DiagnosticSummary :=
  (diags.map to_diagnostic_item,
    diags.foldl (fun acc diag => count_severity acc (diag.severity.getD 1))
      ⟨0, 0, 0, 0⟩)

/-- Tool response of `code_diagnostics` (`CodeDiagnosticsResponse`). -/
structure CodeDiagnosticsResponse where
  diagnostics : List DiagnosticItem
  summary : DiagnosticSummary
deriving Repr, DecidableEq

/-- A tool handler's `FunctionCallOutputPayload`, with the JSON string
serialization abstracted to the structured value: `ok r` stands for
`success = Some(true)` with `r` pretty-printed as the content, `failed msg`
for `success = Some(false)` with `msg` as the content. -/
inductive HandlerOutput (α : Type) where
  | ok : α → HandlerOutput α
  | failed : String → HandlerOutput α
deriving Repr, DecidableEq

/-- The `success` flag of the payload a `HandlerOutput` stands for. -/
def HandlerOutput.success {α : Type} : HandlerOutput α → Option Bool
  | .ok _ => some true
  | .failed _ => some false

/-- The `Ok(client)` branch of `handle_code_diagnostics`, parameterised by
the raw result of the underlying diagnostics request. -/
def handle_code_diagnostics (request_result : Except String Json) :
    HandlerOutput CodeDiagnosticsResponse :=
  match get_diagnostics request_result with
  | Except.ok diagnostics =>
      let (items, summary) := summarize_diagnostics diagnostics
      HandlerOutput.ok { diagnostics := items, summary := summary }
  | Except.error e => HandlerOutput.failed ("Code diagnostics failed: " ++ e)

/-- One location of the `code_definition` tool response (`LocationItem`). -/
structure LocationItem where
  file_path : String
  range : LineRange
  preview : Option String
deriving Repr, DecidableEq

/-- The URI-to-path conversion in `handle_code_definition`:
`loc.uri.strip_prefix("file://").unwrap_or(&loc.uri)` — drop a leading
`file://` when present, otherwise pass the URI through unchanged.  The
byte-offset strip of the ASCII prefix is modelled on the character
sequence. -/
def strip_file_uri (uri : String) : String :=
  if ("file://".data).isPrefixOf uri.data then String.mk (uri.data.drop 7)
  else uri

/-- The per-location conversion of `handle_code_definition`. -/
def to_location_item (loc : Location) : LocationItem :=
  { file_path := strip_file_uri loc.uri
    range :=
      { start_line := loc.range.start.line
        start_character := loc.range.start.character
        end_line := loc.range.«end».line
        end_character := loc.range.«end».character }
    preview := none }

/-- The location list of a successful `handle_code_definition` response. -/
def handle_code_definition_locations (locations : List Location) :
    List LocationItem :=
  locations.map to_location_item

/-- Tool response of `code_complete` (`CodeCompleteResponse`). -/
structure CodeCompleteResponse where
  completions : List CompletionItem
  is_incomplete : Bool
deriving Repr, DecidableEq

/-- Response construction in `handle_code_complete` for a successful
completion call: the client's items are copied field by field into the
tool-schema item type (the two Rust structs have identical fields, merged
here into one), and `is_incomplete` is the literal `false`. -/
def handle_code_complete_response (completions : List CompletionItem) :
    CodeCompleteResponse :=
  { completions :=
      completions.map fun item =>
        { label := item.label
          kind := item.kind
          detail := item.detail
          documentation := item.documentation
          insert_text := item.insert_text }
    is_incomplete := false }

/-- A concrete diagnostic without a severity field, as a server may send. -/
def sample_missing_severity : Diagnostic :=
  { range := { start := ⟨0, 0⟩, «end» := ⟨0, 1⟩ }, severity := none,
    code := none, source := none, message := "m" }

/-- Claim C2: for every file path, language resolution returns the first
configured server whose `file_extensions` set contains the path's extension
(first conjunct: resolution on a non-empty catalog takes the head config iff
it matches, and otherwise recurses); for a path whose extension — or absence
of one, defaulted to `""` — matches no config, `resolve_config` returns the
reportable "no LSP server configured" error and `get_language_for_file`
returns `none`; both are total functions, never a crash. -/
theorem lsp_language_resolution :
    (∀ cfg rest ext,
        resolve_config (cfg :: rest) ext =
          if ext.getD "" ∈ cfg.file_extensions then Except.ok cfg
          else resolve_config rest ext) ∧
    (∀ configs ext,
        (∀ cfg ∈ configs, ext.getD "" ∉ cfg.file_extensions) →
        resolve_config configs ext =
          Except.error
            ("No LSP server configured for file extension: " ++ ext.getD "")) ∧
    (∀ configs, get_language_for_file configs none = none) ∧
    (∀ configs e,
        get_language_for_file configs (some e) =
          (resolve_config configs (some e)).toOption.map
            LspServerConfig.language) := by
  refine ⟨?_, ?_, ?_, ?_⟩
  · intro cfg rest ext
    by_cases h : ext.getD "" ∈ cfg.file_extensions
    · simp [resolve_config, List.find?_cons, h]
    · simp only [resolve_config, List.find?_cons]
      simp [h]
  · intro configs ext h
    have hfind :
        configs.find? (fun cfg => decide (ext.getD "" ∈ cfg.file_extensions))
          = none := by
      rw [List.find?_eq_none]
      intro cfg hcfg
      simpa using h cfg hcfg
    simp [resolve_config, hfind]
  · intro configs
    simp [get_language_for_file]
  · intro configs e
    cases hfind :
        configs.find? (fun cfg => decide (e ∈ cfg.file_extensions)) with
    | none => simp [get_language_for_file, resolve_config, hfind, Except.toOption]
    | some cfg => simp [get_language_for_file, resolve_config, hfind, Except.toOption]

/-- Witness for C2 on the default catalog: `"rs"` resolves to the rust
config (and its language), `"xyz"` and a missing extension resolve to the
typed error / `none`. -/
theorem lsp_language_resolution_witness :
    resolve_config default_lsp_configs (some "xyz") =
      Except.error "No LSP server configured for file extension: xyz" ∧
    get_language_for_file default_lsp_configs none = none ∧
    get_language_for_file default_lsp_configs (some "rs") =
      (resolve_config default_lsp_configs (some "rs")).toOption.map
        LspServerConfig.language :=
  ⟨lsp_language_resolution.2.1 default_lsp_configs (some "xyz") (by decide),
   lsp_language_resolution.2.2.1 default_lsp_configs,
   lsp_language_resolution.2.2.2 default_lsp_configs "rs"⟩

/-- Claim C3: for every inbound message carrying a numeric response id that
matches a pending request, `handle_lsp_message` removes that request's slot
from the pending table and resolves it exactly as follows: with the
server-reported error when the message has an `error` field (even when a
`result` field is also present — never as a success), with the `result`
payload when it has a `result` field and no `error` field, and with the
invalid-response error when it has neither. -/
theorem handle_lsp_message_resolution (message : Json) (pending : List Nat)
    (request_id : Nat) (hnodup : pending.Nodup)
    (hid : (message.get "id").bind Json.asU64 = some request_id)
    (hmem : request_id ∈ pending) :
    (handle_lsp_message message pending).1 = pending.erase request_id ∧
    request_id ∉ (handle_lsp_message message pending).1 ∧
    (∀ e, message.get "error" = some e →
        (handle_lsp_message message pending).2
          = some (request_id, LspResolution.serverError e)) ∧
    (∀ r, message.get "error" = none → message.get "result" = some r →
        (handle_lsp_message message pending).2
          = some (request_id, LspResolution.success r)) ∧
    (message.get "error" = none → message.get "result" = none →
        (handle_lsp_message message pending).2
          = some (request_id, LspResolution.invalidResponse)) := by
  refine ⟨?_, ?_, ?_, ?_, ?_⟩
  · simp [handle_lsp_message, hid, hmem]
  · simp [handle_lsp_message, hid, hmem, hnodup.mem_erase_iff]
  · intro e he
    simp [handle_lsp_message, hid, hmem, he]
  · intro r he hr
    simp [handle_lsp_message, hid, hmem, he, hr]
  · intro he hr
    simp [handle_lsp_message, hid, hmem, he, hr]

/-- Witness for C3: a message with id 7 carrying both an `error` and a
`result` field, against the pending table `[3, 7]`: the slot for 7 is
removed and resolved with the server-reported error, not the result. -/
theorem handle_lsp_message_resolution_witness :
    (handle_lsp_message
        (Json.obj
          [("id", Json.num 7), ("error", Json.str "boom"),
           ("result", Json.null)])
        [3, 7]).1
      = [3, 7].erase 7 ∧
    (handle_lsp_message
        (Json.obj
          [("id", Json.num 7), ("error", Json.str "boom"),
           ("result", Json.null)])
        [3, 7]).2
      = some (7, LspResolution.serverError (Json.str "boom")) :=
  ⟨(handle_lsp_message_resolution
      (Json.obj
        [("id", Json.num 7), ("error", Json.str "boom"),
         ("result", Json.null)])
      [3, 7] 7 (by decide) rfl (by decide)).1,
   (handle_lsp_message_resolution
      (Json.obj
        [("id", Json.num 7), ("error", Json.str "boom"),
         ("result", Json.null)])
      [3, 7] 7 (by decide) rfl (by decide)).2.2.1
     (Json.str "boom") rfl⟩

/-- As long as the u64 counter does not wrap, the assigned ids are the
consecutive integers starting one past the current counter value. -/
theorem assign_ids_eq_range' (k : Nat) :
    ∀ c : Nat, c + k < 2 ^ 64 → assign_ids k c = List.range' (c + 1) k := by
  induction k with
  | zero => intro c _; rfl
  | succ n ih =>
      intro c hc
      have hb : bump64 c = c + 1 := Nat.mod_eq_of_lt (by omega)
      simp only [assign_ids, hb]
      rw [ih (c + 1) (by omega), List.range'_succ]

/-- Claim C4: within one session (counter starting at 0, fewer than `2 ^ 64`
outbound requests over the session's lifetime, so the u64 counter never
wraps), every outbound request is assigned an id strictly greater than all
previously assigned ids: the id sequence is strictly increasing in
assignment order, hence all ids are distinct, and the initial `initialize`
request receives the first id, 1. -/
theorem request_ids_strictly_increasing (k : Nat) (hk : k < 2 ^ 64) :
    (assign_ids k 0).Pairwise (· < ·) ∧
    (assign_ids k 0).Nodup ∧
    (0 < k → (assign_ids k 0).head? = some 1) := by
  have h := assign_ids_eq_range' k 0 (by omega)
  have hpair : (assign_ids k 0).Pairwise (· < ·) := by
    rw [h]; exact List.pairwise_lt_range' 1 k
  refine ⟨hpair, hpair.imp Nat.ne_of_lt, ?_⟩
  intro hpos
  rw [h]
  cases k with
  | zero => omega
  | succ n => simp [List.range'_succ]

/-- Witness for C4 at a session issuing three requests: ids `[1, 2, 3]`,
pairwise increasing, distinct, first id 1. -/
theorem request_ids_strictly_increasing_witness :
    (assign_ids 3 0).Pairwise (· < ·) ∧ (assign_ids 3 0).head? = some 1 :=
  ⟨(request_ids_strictly_increasing 3 (by norm_num)).1,
   (request_ids_strictly_increasing 3 (by norm_num)).2.2 (by norm_num)⟩

/-- Counterexample to claim C5: take a ready session (communication task
running, id counter at 1, no pending requests) whose server process then
exits (EOF on its output).  A request submitted afterwards is NOT rejected
with the "LSP client is closed" error: the request channel is still open, so
the driver loop accepts the request, advances the id counter (a further
state transition) and resolves the request with a transport write failure
instead. -/
theorem send_after_exit_counterexample :
    (send_request_step (after_process_exit ⟨true, true, 1, []⟩)).1
        ≠ RequestOutcome.clientClosed ∧
    (send_request_step (after_process_exit ⟨true, true, 1, []⟩)).1
        = RequestOutcome.writeFailed "Failed to send request" ∧
    (send_request_step (after_process_exit ⟨true, true, 1, []⟩)).2
        ≠ after_process_exit ⟨true, true, 1, []⟩ := by decide

/-- Claim C5 (amended): after the server process exits, the request channel
stays open (the communication task ends only when every client handle is
dropped), so a request submitted afterwards is still accepted by the driver
loop, advances the id counter, and fails with the transport write failure
"Failed to send request" — not with "LSP client is closed".  The "client is
closed" error occurs exactly when the communication task itself has exited,
and only in that case does the submission leave the session state
unchanged. -/
theorem send_request_after_process_exit (s : SessionState)
    (halive : s.commTaskAlive = true) :
    ((send_request_step (after_process_exit s)).1
        = RequestOutcome.writeFailed "Failed to send request" ∧
      (send_request_step (after_process_exit s)).2.request_id
        = bump64 s.request_id) ∧
    (∀ t : SessionState, t.commTaskAlive = false →
        send_request_step t = (RequestOutcome.clientClosed, t)) := by
  constructor
  · constructor <;> simp [send_request_step, after_process_exit, halive]
  · intro t ht
    simp [send_request_step, ht]

/-- Witness for C5 (amended) at a concrete ready session and a concrete
closed session. -/
theorem send_request_after_process_exit_witness :
    (send_request_step (after_process_exit ⟨true, true, 1, []⟩)).1
        = RequestOutcome.writeFailed "Failed to send request" ∧
    send_request_step ⟨false, false, 0, []⟩
        = (RequestOutcome.clientClosed, ⟨false, false, 0, []⟩) :=
  ⟨(send_request_after_process_exit ⟨true, true, 1, []⟩ rfl).1.1,
   (send_request_after_process_exit ⟨true, true, 1, []⟩ rfl).2
     ⟨false, false, 0, []⟩ rfl⟩

/-- Counterexample to claim C1: with the default catalog, workspace `/ws`, a
successful process spawn and a FAILED initialize handshake, the creation
path returns `Ok` — the handshake runs inside the detached communication
task, after `LspClient::new` has already returned — the Manager caches the
dead client under `"rust"`, and a later `get_client_for_file` call returns
that dead client from the cache. -/
theorem handshake_failure_client_still_cached :
    (get_client_for_file (LspManager.new "/ws") (some "rs") SpawnOutcome.ok
        (HandshakeOutcome.failed "init failed")).1
      = Except.ok
          { language := "rust", root_uri := "file:///ws",
            commTaskAlive := false } ∧
    ((get_client_for_file (LspManager.new "/ws") (some "rs") SpawnOutcome.ok
        (HandshakeOutcome.failed "init failed")).2).clients
      = [("rust",
          { language := "rust", root_uri := "file:///ws",
            commTaskAlive := false })] ∧
    (get_client_for_file
        ((get_client_for_file (LspManager.new "/ws") (some "rs")
            SpawnOutcome.ok (HandshakeOutcome.failed "init failed")).2)
        (some "rs") SpawnOutcome.ok HandshakeOutcome.ok).1
      = Except.ok
          { language := "rust", root_uri := "file:///ws",
            commTaskAlive := false } :=
  ⟨rfl, rfl, rfl⟩

/-- Claim C1 (amended): only spawn failures (failing to start the server
process or to take its pipes) make `LspClient::new` return an error, and a
spawn failure leaves the Manager's cache — indeed the whole Manager state —
unchanged.  A handshake failure happens inside the spawned communication
task after `LspClient::new` has already returned `Ok`: the returned client's
communication task is dead, and every request subsequently sent through such
a client fails with the "LSP client is closed" error. -/
theorem creation_failure_handling (config : LspServerConfig)
    (ws msg : String) (hs : HandshakeOutcome) (mgr : LspManager)
    (ext : Option String) :
    lsp_client_new (SpawnOutcome.failed msg) hs config ws
      = Except.error ("Failed to start LSP server: " ++ config.command) ∧
    (get_client_for_file mgr ext (SpawnOutcome.failed msg) hs).2 = mgr ∧
    lsp_client_new SpawnOutcome.ok (HandshakeOutcome.failed msg) config ws
      = Except.ok
          { language := config.language, root_uri := "file://" ++ ws,
            commTaskAlive := false } ∧
    (∀ pa rid pending,
        send_request_step ⟨false, pa, rid, pending⟩
          = (RequestOutcome.clientClosed, ⟨false, pa, rid, pending⟩)) := by
  refine ⟨rfl, ?_, rfl, ?_⟩
  · unfold get_client_for_file
    split
    · rfl
    · split
      · rfl
      · rfl
  · intro pa rid pending
    simp [send_request_step]

/-- Claim C6: for every raw definition response payload,
`go_to_definition_parse` returns a one-element list when the payload parses
as a single `Location`, the parsed list when it parses as a list of
locations, and the empty list for any other payload shape — being a total
function into lists, it never returns an error. -/
theorem go_to_definition_shapes (response : Json) :
    (∀ location, parse_location response = some location →
        go_to_definition_parse response = [location]) ∧
    (∀ locations, parse_locations response = some locations →
        go_to_definition_parse response = locations) ∧
    (parse_location response = none → parse_locations response = none →
        go_to_definition_parse response = []) := by
  refine ⟨?_, ?_, ?_⟩
  · intro location h
    simp [go_to_definition_parse, h]
  · intro locations h
    have hsingle : parse_location response = none := by
      cases response <;> simp_all [parse_locations, parse_location, Json.get]
    simp [go_to_definition_parse, hsingle, h]
  · intro h1 h2
    simp [go_to_definition_parse, h1, h2]

/-- Witness for C6: a single-location payload is normalised to a one-element
list, and `null` — neither a location nor a list — yields the empty list. -/
theorem go_to_definition_shapes_witness :
    go_to_definition_parse
        (Json.obj [("uri", Json.str "file:///a.rs"),
          ("range",
            Json.obj
              [("start",
                Json.obj [("line", Json.num 0), ("character", Json.num 1)]),
               ("end",
                Json.obj [("line", Json.num 2), ("character", Json.num 3)])])])
      = [{ uri := "file:///a.rs",
           range := { start := ⟨0, 1⟩, «end» := ⟨2, 3⟩ } }] ∧
    go_to_definition_parse Json.null = [] :=
  ⟨(go_to_definition_shapes
      (Json.obj [("uri", Json.str "file:///a.rs"),
        ("range",
          Json.obj
            [("start",
              Json.obj [("line", Json.num 0), ("character", Json.num 1)]),
             ("end",
              Json.obj [("line", Json.num 2), ("character", Json.num 3)])])])).1
     { uri := "file:///a.rs", range := { start := ⟨0, 1⟩, «end» := ⟨2, 3⟩ } }
     rfl,
   (go_to_definition_shapes Json.null).2.2 rfl rfl⟩

/-- Claim C7: diagnostics retrieval is best-effort — a failed underlying
request yields an empty diagnostics list rather than an error, and a
response without a `diagnostics` field also yields an empty list, in which
case the tool handler still reports success (`success = Some(true)`) with an
empty, all-zero diagnostics response. -/
theorem get_diagnostics_best_effort (e : String) (response : Json)
    (hnone : response.get "diagnostics" = none) :
    get_diagnostics (Except.error e) = Except.ok [] ∧
    get_diagnostics (Except.ok response) = Except.ok [] ∧
    handle_code_diagnostics (Except.ok response)
      = HandlerOutput.ok { diagnostics := [], summary := ⟨0, 0, 0, 0⟩ } ∧
    (handle_code_diagnostics (Except.ok response)).success = some true := by
  refine ⟨rfl, ?_, ?_, ?_⟩ <;>
    simp [get_diagnostics, handle_code_diagnostics, summarize_diagnostics,
      hnone, HandlerOutput.success]

/-- Witness for C7 at a concrete timed-out request and a concrete `null`
response payload (which has no `diagnostics` field). -/
theorem get_diagnostics_best_effort_witness :
    get_diagnostics (Except.error "LSP request timed out") = Except.ok [] ∧
    (handle_code_diagnostics (Except.ok Json.null)).success = some true :=
  ⟨(get_diagnostics_best_effort "LSP request timed out" Json.null rfl).1,
   (get_diagnostics_best_effort "LSP request timed out" Json.null rfl).2.2.2⟩

/-- One tally step adds one to the error count exactly for severity 1. -/
theorem count_severity_errors (acc : DiagnosticSummary) (v : Nat) :
    (count_severity acc v).errors = acc.errors + (if v = 1 then 1 else 0) := by
  unfold count_severity
  split <;> simp_all

/-- The error count of the severity tally counts the diagnostics whose
defaulted severity is 1. -/
theorem count_fold_errors (diags : List Diagnostic) :
    ∀ acc : DiagnosticSummary,
      (diags.foldl (fun a d => count_severity a (d.severity.getD 1))
          acc).errors
        = acc.errors + diags.countP (fun d => d.severity.getD 1 == 1) := by
  induction diags with
  | nil => intro acc; simp
  | cons d rest ih =>
      intro acc
      rw [List.foldl_cons, ih, List.countP_cons, count_severity_errors]
      by_cases h : d.severity.getD 1 = 1
      · simp [h]
        omega
      · simp [h]

/-- Claim C8: in the diagnostics handler every diagnostic whose severity
field is absent is treated as severity 1 (Error): output item severities are
the input severities defaulted to 1 — so a severity-less diagnostic is
reported with severity 1 — and the summary's error count counts exactly the
diagnostics whose defaulted severity is 1, which includes every severity-less
diagnostic. -/
theorem missing_severity_treated_as_error (diags : List Diagnostic) :
    ((summarize_diagnostics diags).1.map DiagnosticItem.severity
        = diags.map (fun d => d.severity.getD 1)) ∧
    ((summarize_diagnostics diags).2.errors
        = diags.countP (fun d => d.severity.getD 1 == 1)) ∧
    (∀ d ∈ diags, d.severity = none →
        (to_diagnostic_item d).severity = 1 ∧ d.severity.getD 1 = 1) := by
  refine ⟨?_, ?_, ?_⟩
  · simp only [summarize_diagnostics, List.map_map]
    rfl
  · simpa using count_fold_errors diags ⟨0, 0, 0, 0⟩
  · intro d _ hnone
    simp [to_diagnostic_item, hnone]

/-- Witness for C8 on a one-element list holding a severity-less
diagnostic: the error count is 1 and the reported severity is 1. -/
theorem missing_severity_treated_as_error_witness :
    ((summarize_diagnostics [sample_missing_severity]).2.errors
        = [sample_missing_severity].countP
            (fun d => d.severity.getD 1 == 1)) ∧
    (to_diagnostic_item sample_missing_severity).severity = 1 :=
  ⟨(missing_severity_treated_as_error [sample_missing_severity]).2.1,
   ((missing_severity_treated_as_error [sample_missing_severity]).2.2
      sample_missing_severity (by simp) rfl).1⟩

/-- Claim C9: each returned location's `file_path` is the location's URI
with a leading `file://` prefix removed, and a URI that does not start with
`file://` is passed through unchanged, never rejected; the definition
handler's output paths are exactly the stripped URIs of the input
locations. -/
theorem definition_uri_to_path (rest uri : String) (locs : List Location)
    (hnp : ("file://".data).isPrefixOf uri.data = false) :
    strip_file_uri ("file://" ++ rest) = rest ∧
    strip_file_uri uri = uri ∧
    (handle_code_definition_locations locs).map LocationItem.file_path
      = locs.map (fun loc => strip_file_uri loc.uri) := by
  refine ⟨?_, ?_, ?_⟩
  · have hpre :
        ("file://".data).isPrefixOf ("file://" ++ rest).data = true := by
      rw [String.data_append, List.isPrefixOf_iff_prefix]
      exact List.prefix_append _ _
    have hdrop : ("file://" ++ rest).data.drop 7 = rest.data := by
      rw [String.data_append]
      have h7 : 7 = ("file://".data).length := by decide
      rw [h7, List.drop_left]
    have hmk : String.mk rest.data = rest := by
      cases rest; rfl
    unfold strip_file_uri
    rw [if_pos hpre, hdrop, hmk]
  · unfold strip_file_uri
    rw [if_neg (by simp [hnp])]
  · simp only [handle_code_definition_locations, List.map_map]
    rfl

/-- Witness for C9: a `file://` URI is stripped to the path, a non-`file`
URI passes through unchanged. -/
theorem definition_uri_to_path_witness :
    strip_file_uri ("file://" ++ "/x/y.rs") = "/x/y.rs" ∧
    strip_file_uri "untitled:x" = "untitled:x" :=
  ⟨(definition_uri_to_path "/x/y.rs" "untitled:x" [] (by decide)).1,
   (definition_uri_to_path "/x/y.rs" "untitled:x" [] (by decide)).2.1⟩

/-- Claim C10: for every successful completion call the handler's response
reports `is_incomplete = false`, whatever the server returned; the
completion items themselves are passed through unchanged. -/
theorem completion_reports_complete (completions : List CompletionItem) :
    (handle_code_complete_response completions).is_incomplete = false ∧
    (handle_code_complete_response completions).completions = completions := by
  constructor
  · rfl
  · show completions.map (fun item => item) = completions
    exact List.map_id' completions

end Codex
